import Mathlib

/-!
Shallow embedding of the reservation / verification backend (`src/app.py`).

The PostgreSQL database is modelled as an explicit record of tables
(`users`, `email_codes`, `reservations`) together with the two SERIAL
counters that assign fresh row identifiers.  Each Flask handler from
`app.py` becomes a pure Lean function from the incoming request data
(JSON fields become `Option` fields, absent key = `none`) and the
current database/session state to the new state and a result.

Python truthiness in guards such as `if not res_id` is modelled
explicitly: `None` is `none`, the integer `0` and the empty string `""`
are the falsy values of their types.
-/

namespace BackendRS

/-- Error taxonomy of the handlers (HTTP status + message families). -/
inductive ApiError where
  | ValidationError
  | NotFoundError
  | AuthError
  | MismatchError
  | InternalError
deriving DecidableEq, Repr

/-- One row of the `reservations` table (`init_pg` in `app.py`):
`id SERIAL, user_email, branch, date, tables TEXT[], guests, notes,
menu_items TEXT[], status TEXT DEFAULT 'pending', created_at`. -/
structure Reservation where
  id : Nat
  user_email : String
  branch : String
  date : String
  tables : List String
  guests : Int
  notes : String
  menu_items : List String
  status : String
deriving DecidableEq, Repr

/-- One row of the `email_codes` table: `id SERIAL, email, code`. -/
structure EmailCode where
  id : Nat
  email : String
  code : String
deriving DecidableEq, Repr

/-- One row of the `users` table: `id SERIAL, name, email, password,
verified BOOLEAN DEFAULT FALSE, google_id`. -/
structure UserRec where
  id : Nat
  name : String
  email : String
  password : Option String
  verified : Bool
  google_id : Option String
deriving DecidableEq, Repr

/-- The database state: the three relevant tables plus the SERIAL
counters that hand out the next fresh `id`. -/
structure DB where
  users : List UserRec
  email_codes : List EmailCode
  reservations : List Reservation
  nextResId : Nat
  nextCodeId : Nat
deriving DecidableEq, Repr

/-- The identity stored in `session["user"]` after login. -/
structure SessUser where
  name : String
  email : String
deriving DecidableEq, Repr

/-- A staged draft (`session["pending_booking"]`, also the `pending`
object of a claim request body): the JSON payload of a reservation
without owner/status.  `none` = key absent from the JSON object. -/
structure PendingData where
  branch : Option String
  date : Option String
  tables : Option (List String)
  guests : Option Int
  notes : Option String
  menu_items : Option (List String)
deriving DecidableEq, Repr

/-- The Flask session state used by the handlers. -/
structure Sess where
  user : Option SessUser
  pending_booking : Option PendingData
deriving DecidableEq, Repr

/-- JSON body of `POST /reservation`; `none` = key absent. -/
structure CreateReq where
  user_email : Option String
  branch : Option String
  date : Option String
  tables : Option (List String)
  guests : Option Int
  notes : Option String
  menu_items : Option (List String)
deriving DecidableEq, Repr

/-- `create_reservation` (`POST /reservation`, app.py:444-473).
Checks `any(k not in data for k in required)` over
`["user_email", "branch", "date", "tables", "guests"]`, then inserts a
row; `status` takes the column default `'pending'`.  Returns the fresh
`id`. -/
def create_reservation (db : DB) (data : CreateReq) : DB × Except ApiError Nat :=
  if data.user_email.isNone || data.branch.isNone || data.date.isNone ||
      data.tables.isNone || data.guests.isNone then
    (db, .error .ValidationError)
  else
    let r : Reservation :=
      { id := db.nextResId
        user_email := data.user_email.getD ""
        branch := data.branch.getD ""
        date := data.date.getD ""
        tables := data.tables.getD []
        guests := data.guests.getD 0
        notes := data.notes.getD ""
        menu_items := data.menu_items.getD []
        status := "pending" }
    ({ db with reservations := db.reservations ++ [r], nextResId := db.nextResId + 1 },
      .ok db.nextResId)

/-- The projection built by `user_bookings` for each row. -/
structure BookingView where
  id : Nat
  date : String
  branch : String
  persons : Int
  menu : List String
  status : String
deriving DecidableEq, Repr

/-- Row-to-view projection inside `user_bookings`. -/
def toBookingView (r : Reservation) : BookingView :=
  { id := r.id, date := r.date, branch := r.branch, persons := r.guests,
    menu := r.menu_items, status := r.status }

/-- `user_bookings` (`GET /user/bookings`, app.py:318-343).
Requires a logged-in session user; `SELECT * FROM reservations WHERE
user_email=%s ORDER BY date DESC`, then projects each row. -/
def user_bookings (db : DB) (sess : Sess) : Except ApiError (List BookingView) :=
  match sess.user with
  | none => .error .AuthError
  | some u =>
      .ok (((db.reservations.filter (fun r => r.user_email = u.email)).mergeSort
        (fun a b => b.date ≤ a.date)).map toBookingView)

/-- The rows scanned by the occupancy query: `SELECT tables FROM
reservations WHERE branch = %s AND date = %s AND status != 'cancelled'`,
concatenated in row order (`occupied.extend(row[0])`). -/
def occupiedTables (db : DB) (branch date : String) : List String :=
  (db.reservations.filter
    (fun r => r.branch = branch ∧ r.date = date ∧ r.status ≠ "cancelled")).flatMap
    (fun r => r.tables)

/-- `get_occupied` (`GET /occupied`, app.py:419-442).  Query parameters
`branch` and `date`; `if not branch or not date` rejects an absent or
empty parameter. -/
def get_occupied (db : DB) (branch date : Option String) : Except ApiError (List String) :=
  match branch, date with
  | some b, some d =>
      if b = "" || d = "" then .error .ValidationError
      else .ok (occupiedTables db b d)
  | _, _ => .error .ValidationError

/-- `generate_email_code` (app.py:142-152) with the random 6-digit code
passed in as a parameter: `INSERT INTO email_codes (email, code)` gives
the row the next SERIAL id. -/
def generate_email_code (db : DB) (email code : String) : DB :=
  { db with
    email_codes := db.email_codes ++ [{ id := db.nextCodeId, email := email, code := code }],
    nextCodeId := db.nextCodeId + 1 }

/-- Fold step selecting the row with the greater `id` (the later row on
a tie, though SERIAL ids never tie). -/
def pickNewer (acc : Option EmailCode) (c : EmailCode) : Option EmailCode :=
  match acc with
  | none => some c
  | some a => if a.id ≤ c.id then some c else some a

/-- `SELECT code FROM email_codes WHERE email=%s ORDER BY id DESC
LIMIT 1`: the matching row with the greatest `id`, if any. -/
def latestCode (db : DB) (email : String) : Option EmailCode :=
  (db.email_codes.filter (fun c => c.email = email)).foldl pickNewer none

/-- `UPDATE users SET verified=True WHERE email=%s`. -/
def setVerified (us : List UserRec) (email : String) : List UserRec :=
  us.map (fun u => if u.email = email then { u with verified := true } else u)

/-- `verify_email` (`POST /verify-email`, app.py:222-252).
`if not email or not code` → 400; no code row for the email → 400
"Код не найден" (NotFoundError); stored latest code ≠ submitted code →
400 "Неверный код" (MismatchError); otherwise flip `verified` for the
matching users and succeed. -/
def verify_email (db : DB) (email code : Option String) : DB × Except ApiError Unit :=
  match email, code with
  | some e, some c =>
      if e = "" || c = "" then (db, .error .ValidationError)
      else
        match latestCode db e with
        | none => (db, .error .NotFoundError)
        | some rec =>
            if rec.code ≠ c then (db, .error .MismatchError)
            else ({ db with users := setVerified db.users e }, .ok ())
  | _, _ => (db, .error .ValidationError)

/-- `UPDATE reservations SET status = %s WHERE id = %s`. -/
def setStatus (rs : List Reservation) (i : Nat) (st : String) : List Reservation :=
  rs.map (fun r => if r.id = i then { r with status := st } else r)

/-- Whether a reservation row with this id exists (`RETURNING id`
produced a row). -/
def hasRes (db : DB) (i : Nat) : Bool :=
  db.reservations.any (fun r => r.id = i)

/-- `confirm_reservation` (`POST /reservation/confirm`, app.py:555-572).
`res_id = data.get("reservation_id"); if not res_id` → 400 (so an
absent key and the falsy id `0` both fail validation); then the
unconditional UPDATE to `'confirmed'`; no row returned → 404. -/
def confirm_reservation (db : DB) (res_id : Option Nat) : DB × Except ApiError Nat :=
  match res_id with
  | none => (db, .error .ValidationError)
  | some i =>
      if i = 0 then (db, .error .ValidationError)
      else
        let db' := { db with reservations := setStatus db.reservations i "confirmed" }
        if hasRes db i then (db', .ok i) else (db', .error .NotFoundError)

/-- `cancel_reservation` (`POST /reservation/cancel`, app.py:574-618).
Same shape as confirm with `res_id = data.get("id")` and the
unconditional UPDATE to `'cancelled'`. -/
def cancel_reservation (db : DB) (res_id : Option Nat) : DB × Except ApiError Nat :=
  match res_id with
  | none => (db, .error .ValidationError)
  | some i =>
      if i = 0 then (db, .error .ValidationError)
      else
        let db' := { db with reservations := setStatus db.reservations i "cancelled" }
        if hasRes db i then (db', .ok i) else (db', .error .NotFoundError)

/-- `save_pending` (`POST /pending`, app.py:478-499): stores the draft
in the session, overwriting any prior one (`if not data` → 400). -/
def save_pending (sess : Sess) (data : Option PendingData) : Sess × Except ApiError Unit :=
  match data with
  | none => (sess, .error .ValidationError)
  | some d => ({ sess with pending_booking := some d }, .ok ())

/-- Result of `claim_pending`: AuthError 401, the 200 no-op
"Нет pending брони", ValidationError 400, InternalError 500, or
success with the fresh reservation id. -/
inductive ClaimResult where
  | authErr
  | noop
  | validationErr
  | internalErr
  | ok (reservation_id : Nat)
deriving DecidableEq, Repr

/-- `claim_pending` (`POST /pending/claim`, app.py:502-551).
401 without `session["user"]`; `pending = body.get("pending") or
flask_session.get("pending_booking")`; falsy pending → 200 no-op;
missing required draft field → 400 (note: returns before the
`session.pop`); then the INSERT inside try/except — `storageOk` is
whether the database raises — and only on the successful path
`flask_session.pop("pending_booking", None)` runs. -/
def claim_pending (db : DB) (sess : Sess) (bodyPending : Option PendingData)
    (storageOk : Bool) : DB × Sess × ClaimResult :=
  match sess.user with
  | none => (db, sess, .authErr)
  | some u =>
      match bodyPending.orElse (fun _ => sess.pending_booking) with
      | none => (db, sess, .noop)
      | some p =>
          if p.branch.isNone || p.date.isNone || p.tables.isNone || p.guests.isNone then
            (db, sess, .validationErr)
          else if storageOk then
            let r : Reservation :=
              { id := db.nextResId
                user_email := u.email
                branch := p.branch.getD ""
                date := p.date.getD ""
                tables := p.tables.getD []
                guests := p.guests.getD 0
                notes := p.notes.getD ""
                menu_items := p.menu_items.getD []
                status := "pending" }
            ({ db with reservations := db.reservations ++ [r], nextResId := db.nextResId + 1 },
              { sess with pending_booking := none },
              .ok db.nextResId)
          else
            (db, sess, .internalErr)

/-- The status column of the row with id `i` (first match). -/
def statusOf (db : DB) (i : Nat) : Option String :=
  (db.reservations.find? (fun r => r.id = i)).map (fun r => r.status)

/-! ### Sample states shared by concrete witnesses and counterexamples -/

/-- A sample reservation row in the `cancelled` state. -/
def resCancelled : Reservation :=
  { id := 1, user_email := "a@x.com", branch := "B1",
    date := "2024-01-01", tables := ["T1"], guests := 2, notes := "",
    menu_items := [], status := "cancelled" }

/-- A sample database holding a single cancelled reservation. -/
def dbCancelled : DB :=
  { users := [], email_codes := [], reservations := [resCancelled],
    nextResId := 2, nextCodeId := 1 }

/-- An empty sample database. -/
def dbEmpty : DB :=
  { users := [], email_codes := [], reservations := [], nextResId := 1, nextCodeId := 1 }

/-! ### Helper lemmas about the UPDATE’s row mapping -/

theorem setStatus_nil (i : Nat) (st : String) : setStatus [] i st = [] := rfl

theorem setStatus_cons (r : Reservation) (rs : List Reservation) (i : Nat) (st : String) :
    setStatus (r :: rs) i st =
      (if r.id = i then { r with status := st } else r) :: setStatus rs i st := rfl

theorem find?_setStatus (rs : List Reservation) (i : Nat) (st : String) :
    (setStatus rs i st).find? (fun r => r.id = i) =
      (rs.find? (fun r => r.id = i)).map (fun r => { r with status := st }) := by
  induction rs with
  | nil => rfl
  | cons r rs ih =>
      by_cases h : r.id = i
      · simp [setStatus_cons, List.find?_cons, h]
      · simpa [setStatus_cons, List.find?_cons, h] using ih

theorem any_setStatus (rs : List Reservation) (i j : Nat) (st : String) :
    (setStatus rs i st).any (fun r => r.id = j) = rs.any (fun r => r.id = j) := by
  induction rs with
  | nil => rfl
  | cons r rs ih =>
      by_cases h : r.id = i <;> simp [setStatus_cons, List.any_cons, h, ih]

theorem setStatus_not_present (rs : List Reservation) (i : Nat) (st : String)
    (h : rs.any (fun r => r.id = i) = false) : setStatus rs i st = rs := by
  induction rs with
  | nil => rfl
  | cons r rs ih =>
      rw [List.any_cons, Bool.or_eq_false_iff] at h
      have hr : ¬r.id = i := by simpa using h.1
      rw [setStatus_cons, if_neg hr, ih h.2]

theorem statusOf_set (db : DB) (i : Nat) (st : String) (h : hasRes db i = true) :
    statusOf { db with reservations := setStatus db.reservations i st } i = some st := by
  have hsome : (db.reservations.find? (fun r => r.id = i)).isSome := by
    rw [List.find?_isSome]
    simpa [hasRes, List.any_eq_true] using h
  obtain ⟨r, hr⟩ := Option.isSome_iff_exists.mp hsome
  simp [statusOf, find?_setStatus, hr]

theorem hasRes_set (db : DB) (i : Nat) (st : String) :
    hasRes { db with reservations := setStatus db.reservations i st } i = hasRes db i := by
  simp [hasRes, any_setStatus]

theorem confirm_state (db : DB) (i : Nat) (hi : i ≠ 0) :
    (confirm_reservation db (some i)).1 =
      { db with reservations := setStatus db.reservations i "confirmed" } := by
  by_cases h : hasRes db i <;> simp [confirm_reservation, hi, h]

theorem cancel_state (db : DB) (i : Nat) (hi : i ≠ 0) :
    (cancel_reservation db (some i)).1 =
      { db with reservations := setStatus db.reservations i "cancelled" } := by
  by_cases h : hasRes db i <;> simp [cancel_reservation, hi, h]

theorem confirm_ok (db : DB) (i : Nat) (hi : i ≠ 0) (h : hasRes db i = true) :
    (confirm_reservation db (some i)).2 = .ok i := by
  simp [confirm_reservation, hi, h]

theorem cancel_ok (db : DB) (i : Nat) (hi : i ≠ 0) (h : hasRes db i = true) :
    (cancel_reservation db (some i)).2 = .ok i := by
  simp [cancel_reservation, hi, h]

/-! ### C2: reservation state machine -/

/-- C2: counterexample.  The claim says `cancelled` is terminal; but on
the sample database whose only reservation (id 1) is `cancelled`,
Confirm succeeds and flips its status to `confirmed`. -/
theorem C2_counterexample :
    statusOf dbCancelled 1 = some "cancelled" ∧
    (confirm_reservation dbCancelled (some 1)).2 = .ok 1 ∧
    statusOf (confirm_reservation dbCancelled (some 1)).1 1 = some "confirmed" := by
  refine ⟨by rfl, by rfl, by rfl⟩

/-- C2 (amended): Confirm and Cancel update unconditionally — for every
existing reservation id, regardless of the current status, Confirm
succeeds leaving status `confirmed` and Cancel succeeds leaving status
`cancelled`; so `confirmed` and `cancelled` are not terminal states. -/
theorem C2_amended (db : DB) (i : Nat) (hi : i ≠ 0) (h : hasRes db i = true) :
    (confirm_reservation db (some i)).2 = .ok i ∧
    statusOf (confirm_reservation db (some i)).1 i = some "confirmed" ∧
    (cancel_reservation db (some i)).2 = .ok i ∧
    statusOf (cancel_reservation db (some i)).1 i = some "cancelled" := by
  refine ⟨?_, ?_, ?_, ?_⟩
  · exact confirm_ok db i hi h
  · rw [confirm_state db i hi]; exact statusOf_set db i _ h
  · exact cancel_ok db i hi h
  · rw [cancel_state db i hi]; exact statusOf_set db i _ h

/-- C2 (amended) witness at a concrete input. -/
theorem C2_amended_witness :
    (confirm_reservation dbCancelled (some 1)).2 = .ok 1 ∧
    statusOf (confirm_reservation dbCancelled (some 1)).1 1 = some "confirmed" ∧
    (cancel_reservation dbCancelled (some 1)).2 = .ok 1 ∧
    statusOf (cancel_reservation dbCancelled (some 1)).1 1 = some "cancelled" :=
  C2_amended dbCancelled 1 (by decide) (by rfl)

/-! ### C5: Confirm/Cancel on an absent identifier -/

/-- C5: counterexample.  The id `0` is never present in the store, yet
`if not res_id` treats it as missing: both handlers answer with the
ValidationError (400 "reservation_id required" / "Missing or invalid
reservation id field"), not with NotFoundError. -/
theorem C5_counterexample :
    hasRes dbCancelled 0 = false ∧
    (confirm_reservation dbCancelled (some 0)).2 = .error .ValidationError ∧
    (cancel_reservation dbCancelled (some 0)).2 = .error .ValidationError := by
  refine ⟨by rfl, by rfl, by rfl⟩

/-- C5 (amended): for every nonzero reservation identifier not present
in the store, Confirm and Cancel fail with NotFoundError and leave the
store unchanged (identifier `0`, which also is never present, instead
trips the falsy-id validation guard). -/
theorem C5_amended (db : DB) (i : Nat) (hi : i ≠ 0) (h : hasRes db i = false) :
    confirm_reservation db (some i) = (db, .error .NotFoundError) ∧
    cancel_reservation db (some i) = (db, .error .NotFoundError) := by
  have hset : ∀ st, setStatus db.reservations i st = db.reservations := fun st =>
    setStatus_not_present _ _ _ (by simpa [hasRes] using h)
  constructor <;>
    simp [confirm_reservation, cancel_reservation, hi, h, hset]

/-- C5 (amended) witness at a concrete input. -/
theorem C5_amended_witness :
    confirm_reservation dbCancelled (some 7) = (dbCancelled, .error .NotFoundError) ∧
    cancel_reservation dbCancelled (some 7) = (dbCancelled, .error .NotFoundError) :=
  C5_amended dbCancelled 7 (by decide) (by rfl)

/-! ### C8: Cancel is idempotent -/

/-- C8: for every reservation id present in the store, the first Cancel
succeeds leaving status `cancelled`, and a second Cancel on the
resulting store also succeeds and leaves status `cancelled`. -/
theorem C8_cancel_idempotent (db : DB) (i : Nat) (hi : i ≠ 0) (h : hasRes db i = true) :
    (cancel_reservation db (some i)).2 = .ok i ∧
    statusOf (cancel_reservation db (some i)).1 i = some "cancelled" ∧
    (cancel_reservation (cancel_reservation db (some i)).1 (some i)).2 = .ok i ∧
    statusOf (cancel_reservation (cancel_reservation db (some i)).1 (some i)).1 i =
      some "cancelled" := by
  have h1 : hasRes (cancel_reservation db (some i)).1 i = true := by
    rw [cancel_state db i hi, hasRes_set]; exact h
  refine ⟨?_, ?_, ?_, ?_⟩
  · exact cancel_ok db i hi h
  · rw [cancel_state db i hi]; exact statusOf_set db i _ h
  · exact cancel_ok _ i hi h1
  · rw [cancel_state (cancel_reservation db (some i)).1 i hi]
    exact statusOf_set _ i _ h1

/-! ### C3: occupancy query -/

/-- C3: for every nonempty branch and date, the occupancy query
succeeds, and a table id is in its answer exactly when some reservation
for that branch and date whose status is not `cancelled` lists it —
so tables of only-`cancelled` reservations are excluded and tables of
`pending` or `confirmed` ones are included. -/
theorem C3_occupied_characterization (db : DB) (b d : String) (hb : b ≠ "") (hd : d ≠ "") :
    ∃ occ, get_occupied db (some b) (some d) = .ok occ ∧
      ∀ t, t ∈ occ ↔ ∃ r ∈ db.reservations,
        r.branch = b ∧ r.date = d ∧ r.status ≠ "cancelled" ∧ t ∈ r.tables := by
  refine ⟨occupiedTables db b d, by simp [get_occupied, hb, hd], ?_⟩
  intro t
  simp only [occupiedTables, List.mem_flatMap, List.mem_filter, decide_eq_true_eq]
  constructor
  · rintro ⟨r, ⟨hr, hb', hd', hs⟩, ht⟩
    exact ⟨r, hr, hb', hd', hs, ht⟩
  · rintro ⟨r, hr, hb', hd', hs, ht⟩
    exact ⟨r, ⟨hr, hb', hd', hs⟩, ht⟩

/-- A sample database with one pending and one cancelled reservation on
the same branch and date. -/
def resPendingT2 : Reservation :=
  { id := 2, user_email := "b@x.com", branch := "B1",
    date := "2024-01-01", tables := ["T2"], guests := 4, notes := "",
    menu_items := [], status := "pending" }

def dbMixed : DB :=
  { users := [], email_codes := [], reservations := [resCancelled, resPendingT2],
    nextResId := 3, nextCodeId := 1 }

/-- C3 witness at a concrete input. -/
theorem C3_occupied_witness :
    ("B1" ≠ "" ∧ "2024-01-01" ≠ "") ∧
    ∃ occ, get_occupied dbMixed (some "B1") (some "2024-01-01") = .ok occ ∧
      ∀ t, t ∈ occ ↔ ∃ r ∈ dbMixed.reservations,
        r.branch = "B1" ∧ r.date = "2024-01-01" ∧ r.status ≠ "cancelled" ∧ t ∈ r.tables :=
  ⟨by decide,
    C3_occupied_characterization dbMixed "B1" "2024-01-01" (by decide) (by decide)⟩

/-! ### Create: shared reduction lemma -/

/-- On a request carrying all five required fields, `create_reservation`
inserts exactly one new `pending` row with the fresh SERIAL id. -/
theorem create_valid (db : DB) (req : CreateReq) (e b d : String) (ts : List String)
    (g : Int) (h1 : req.user_email = some e) (h2 : req.branch = some b)
    (h3 : req.date = some d) (h4 : req.tables = some ts) (h5 : req.guests = some g) :
    create_reservation db req =
      ({ db with
          reservations := db.reservations ++
            [{ id := db.nextResId, user_email := e, branch := b, date := d,
               tables := ts, guests := g, notes := req.notes.getD "",
               menu_items := req.menu_items.getD [], status := "pending" }],
          nextResId := db.nextResId + 1 },
        .ok db.nextResId) := by
  simp [create_reservation, h1, h2, h3, h4, h5]

/-! ### C9: no free-table check at write time -/

/-- C9: Create never checks occupancy — on any store, a request with the
five required fields succeeds with the fresh id; repeating the same
request on the resulting store succeeds again with the next id; and
after each insert every requested table id is in the occupancy set of
that branch and date, so the second Create succeeds although its
tables are already occupied. -/
theorem C9_no_write_time_check (db : DB) (req : CreateReq) (e b d : String)
    (ts : List String) (g : Int)
    (h1 : req.user_email = some e) (h2 : req.branch = some b) (h3 : req.date = some d)
    (h4 : req.tables = some ts) (h5 : req.guests = some g) :
    (create_reservation db req).2 = .ok db.nextResId ∧
    (create_reservation (create_reservation db req).1 req).2 = .ok (db.nextResId + 1) ∧
    (∀ t ∈ ts, t ∈ occupiedTables (create_reservation db req).1 b d) ∧
    (∀ t ∈ ts,
      t ∈ occupiedTables (create_reservation (create_reservation db req).1 req).1 b d) := by
  have hmem : ∀ (db' : DB), ∀ t ∈ ts, t ∈ occupiedTables (create_reservation db' req).1 b d := by
    intro db' t ht
    rw [create_valid db' req e b d ts g h1 h2 h3 h4 h5]
    simp only [occupiedTables, List.mem_flatMap, List.mem_filter, decide_eq_true_eq]
    exact ⟨_, ⟨List.mem_append_right _ (List.mem_singleton_self _),
      rfl, rfl, by simp⟩, ht⟩
  refine ⟨?_, ?_, hmem db, hmem _⟩
  · rw [create_valid db req e b d ts g h1 h2 h3 h4 h5]
  · rw [create_valid db req e b d ts g h1 h2 h3 h4 h5,
      create_valid _ req e b d ts g h1 h2 h3 h4 h5]

/-- A sample fully-populated create request. -/
def reqFull : CreateReq :=
  { user_email := some "a@x.com", branch := some "B1", date := some "2024-01-01",
    tables := some ["T1"], guests := some 2, notes := none, menu_items := none }

/-- C9 witness at a concrete input. -/
theorem C9_no_write_time_check_witness :
    (create_reservation dbEmpty reqFull).2 = .ok dbEmpty.nextResId ∧
    (create_reservation (create_reservation dbEmpty reqFull).1 reqFull).2 =
      .ok (dbEmpty.nextResId + 1) ∧
    (∀ t ∈ ["T1"],
      t ∈ occupiedTables (create_reservation dbEmpty reqFull).1 "B1" "2024-01-01") ∧
    (∀ t ∈ ["T1"],
      t ∈ occupiedTables
        (create_reservation (create_reservation dbEmpty reqFull).1 reqFull).1
        "B1" "2024-01-01") :=
  C9_no_write_time_check dbEmpty reqFull "a@x.com" "B1" "2024-01-01" ["T1"] 2
    rfl rfl rfl rfl rfl

/-! ### C1: Create inserts a pending reservation visible to its owner -/

/-- C1: a Create request carrying all five required fields succeeds,
returning the id of a single new row whose status is `pending`, and
that row's projection appears in the owner's List-for-owner answer;
a request missing any required field fails with ValidationError and
leaves the store unchanged. -/
theorem C1_create_pending_listed (db : DB) (req : CreateReq) (sess : Sess) (u : SessUser)
    (e b d : String) (ts : List String) (g : Int)
    (h1 : req.user_email = some e) (h2 : req.branch = some b) (h3 : req.date = some d)
    (h4 : req.tables = some ts) (h5 : req.guests = some g)
    (hs : sess.user = some u) (hue : u.email = e) :
    (∃ rid r, (create_reservation db req).2 = .ok rid ∧ r.id = rid ∧
        r.status = "pending" ∧ r.user_email = e ∧
        (create_reservation db req).1.reservations = db.reservations ++ [r] ∧
        ∃ views, user_bookings (create_reservation db req).1 sess = .ok views ∧
          toBookingView r ∈ views) ∧
    (∀ (db₀ : DB) (req₀ : CreateReq),
        req₀.user_email = none ∨ req₀.branch = none ∨ req₀.date = none ∨
          req₀.tables = none ∨ req₀.guests = none →
        create_reservation db₀ req₀ = (db₀, .error .ValidationError)) := by
  constructor
  · rw [create_valid db req e b d ts g h1 h2 h3 h4 h5]
    refine ⟨db.nextResId, _, rfl, rfl, rfl, rfl, rfl, ?_⟩
    simp only [user_bookings, hs]
    refine ⟨_, rfl, ?_⟩
    apply List.mem_map_of_mem toBookingView
    rw [List.mem_mergeSort, List.mem_filter]
    exact ⟨List.mem_append_right _ (List.mem_singleton_self _), by simp [hue]⟩
  · rintro db₀ req₀ (h | h | h | h | h) <;> simp [create_reservation, h]

/-- A sample session logged in as the owner `a@x.com`. -/
def sessOwner : Sess :=
  { user := some { name := "A", email := "a@x.com" }, pending_booking := none }

/-- C1 witness at a concrete input. -/
theorem C1_create_pending_listed_witness :
    (∃ rid r, (create_reservation dbEmpty reqFull).2 = .ok rid ∧ r.id = rid ∧
        r.status = "pending" ∧ r.user_email = "a@x.com" ∧
        (create_reservation dbEmpty reqFull).1.reservations =
          dbEmpty.reservations ++ [r] ∧
        ∃ views, user_bookings (create_reservation dbEmpty reqFull).1 sessOwner =
            .ok views ∧ toBookingView r ∈ views) ∧
    (∀ (db₀ : DB) (req₀ : CreateReq),
        req₀.user_email = none ∨ req₀.branch = none ∨ req₀.date = none ∨
          req₀.tables = none ∨ req₀.guests = none →
        create_reservation db₀ req₀ = (db₀, .error .ValidationError)) :=
  C1_create_pending_listed dbEmpty reqFull sessOwner { name := "A", email := "a@x.com" }
    "a@x.com" "B1" "2024-01-01" ["T1"] 2 rfl rfl rfl rfl rfl rfl rfl

/-- C8 witness at a concrete input. -/
theorem C8_cancel_idempotent_witness :
    (cancel_reservation dbCancelled (some 1)).2 = .ok 1 ∧
    statusOf (cancel_reservation dbCancelled (some 1)).1 1 = some "cancelled" ∧
    (cancel_reservation (cancel_reservation dbCancelled (some 1)).1 (some 1)).2 = .ok 1 ∧
    statusOf (cancel_reservation (cancel_reservation dbCancelled (some 1)).1 (some 1)).1 1 =
      some "cancelled" :=
  C8_cancel_idempotent dbCancelled 1 (by decide) (by rfl)

/-! ### Helper lemmas about the latest-code lookup -/

theorem foldl_pickNewer_cases (l : List EmailCode) (acc : Option EmailCode) :
    l.foldl pickNewer acc = acc ∨ ∃ x ∈ l, l.foldl pickNewer acc = some x := by
  induction l generalizing acc with
  | nil => exact Or.inl rfl
  | cons c l ih =>
      rw [List.foldl_cons]
      rcases ih (pickNewer acc c) with h | ⟨x, hx, hfx⟩
      · rw [h]
        cases acc with
        | none => exact Or.inr ⟨c, List.mem_cons_self c l, rfl⟩
        | some a =>
            by_cases hle : a.id ≤ c.id
            · exact Or.inr ⟨c, List.mem_cons_self c l, by simp [pickNewer, hle]⟩
            · exact Or.inl (by simp [pickNewer, hle])
      · exact Or.inr ⟨x, List.mem_cons_of_mem c hx, hfx⟩

theorem foldl_pickNewer_last (l : List EmailCode) (x : EmailCode)
    (h : ∀ y ∈ l, y.id ≤ x.id) :
    (l ++ [x]).foldl pickNewer none = some x := by
  rw [List.foldl_append]
  rcases foldl_pickNewer_cases l none with hc | ⟨a, ha, hfa⟩
  · rw [hc]; rfl
  · rw [hfa]; simp [pickNewer, h a ha]

/-- Issuing a code twice for the same email: the second issued row is
the one `ORDER BY id DESC LIMIT 1` returns. -/
theorem latestCode_gen_gen (db : DB) (e c1 c2 : String)
    (h : ∀ y ∈ db.email_codes, y.id < db.nextCodeId) :
    latestCode (generate_email_code (generate_email_code db e c1) e c2) e =
      some { id := db.nextCodeId + 1, email := e, code := c2 } := by
  have hfilter :
      ((db.email_codes ++ [({ id := db.nextCodeId, email := e, code := c1 } : EmailCode)]) ++
          [({ id := db.nextCodeId + 1, email := e, code := c2 } : EmailCode)]).filter
            (fun c => c.email = e) =
        (db.email_codes.filter (fun c => c.email = e) ++
          [({ id := db.nextCodeId, email := e, code := c1 } : EmailCode)]) ++
          [({ id := db.nextCodeId + 1, email := e, code := c2 } : EmailCode)] := by
    simp [List.filter_append]
  rw [latestCode, generate_email_code, generate_email_code]
  rw [hfilter]
  apply foldl_pickNewer_last
  intro y hy
  rcases List.mem_append.mp hy with hy | hy
  · exact Nat.le_of_lt (Nat.lt_succ_of_lt
      (h y (List.mem_of_mem_filter hy)))
  · rw [List.mem_singleton.mp hy]
    exact Nat.le_succ _

theorem setVerified_cons (u : UserRec) (us : List UserRec) (e : String) :
    setVerified (u :: us) e =
      (if u.email = e then { u with verified := true } else u) :: setVerified us e := rfl

theorem setVerified_no_match (us : List UserRec) (e : String)
    (h : ∀ u ∈ us, u.email ≠ e) : setVerified us e = us := by
  induction us with
  | nil => rfl
  | cons u us ih =>
      rw [setVerified_cons, if_neg (h u (List.mem_cons_self u us)),
        ih (fun v hv => h v (List.mem_cons_of_mem u hv))]

/-! ### C4: the Verify flow -/

/-- C4: Verify on a nonempty email and nonempty submitted code answers
NotFoundError when no code row exists for the email; MismatchError when
the most recently issued code differs from the submitted one by exact
string comparison; on a match it flips `verified` for the accounts with
that email and succeeds — with no expiry condition anywhere.  In
particular, after a newer code is issued, submitting the older,
superseded code fails with MismatchError. -/
theorem C4_verify_email (db : DB) (e c : String) (he : e ≠ "") (hc : c ≠ "") :
    (latestCode db e = none →
      verify_email db (some e) (some c) = (db, .error .NotFoundError)) ∧
    (∀ r0, latestCode db e = some r0 → r0.code ≠ c →
      verify_email db (some e) (some c) = (db, .error .MismatchError)) ∧
    (∀ r0, latestCode db e = some r0 → r0.code = c →
      verify_email db (some e) (some c) =
        ({ db with users := setVerified db.users e }, .ok ())) ∧
    (∀ c1, c1 ≠ c → c1 ≠ "" →
      (∀ y ∈ db.email_codes, y.id < db.nextCodeId) →
      (verify_email (generate_email_code (generate_email_code db e c1) e c) (some e)
          (some c1)).2 = .error .MismatchError) := by
  refine ⟨?_, ?_, ?_, ?_⟩
  · intro hl; simp [verify_email, he, hc, hl]
  · intro r0 hl hne; simp [verify_email, he, hc, hl, hne]
  · intro r0 hl heq; simp [verify_email, he, hc, hl, heq]
  · intro c1 hne h1 hlt
    have hl := latestCode_gen_gen db e c1 c hlt
    simp [verify_email, he, h1, hl, Ne.symm hne]

/-- Sample rows for the verification flow. -/
def codeRow1 : EmailCode := { id := 1, email := "a@x.com", code := "111111" }

def userA : UserRec :=
  { id := 1, name := "A", email := "a@x.com", password := none,
    verified := false, google_id := none }

/-- A database holding one account and one issued code for it. -/
def dbCodes : DB :=
  { users := [userA], email_codes := [codeRow1], reservations := [],
    nextResId := 1, nextCodeId := 2 }

/-- C4 witness: the three outcomes and the superseded-code outcome at
concrete inputs. -/
theorem C4_verify_email_witness :
    verify_email dbCodes (some "b@y.com") (some "111111") =
      (dbCodes, .error .NotFoundError) ∧
    verify_email dbCodes (some "a@x.com") (some "222222") =
      (dbCodes, .error .MismatchError) ∧
    verify_email dbCodes (some "a@x.com") (some "111111") =
      ({ dbCodes with users := setVerified dbCodes.users "a@x.com" }, .ok ()) ∧
    (verify_email (generate_email_code (generate_email_code dbCodes "a@x.com" "333333")
        "a@x.com" "111111") (some "a@x.com") (some "333333")).2 =
      .error .MismatchError :=
  ⟨(C4_verify_email dbCodes "b@y.com" "111111" (by decide) (by decide)).1 rfl,
    (C4_verify_email dbCodes "a@x.com" "222222" (by decide) (by decide)).2.1
      codeRow1 rfl (by decide),
    (C4_verify_email dbCodes "a@x.com" "111111" (by decide) (by decide)).2.2.1
      codeRow1 rfl rfl,
    (C4_verify_email dbCodes "a@x.com" "111111" (by decide) (by decide)).2.2.2
      "333333" (by decide) (by decide) (by decide)⟩

/-! ### C10: Verify succeeds with no matching account -/

/-- C10: when the submitted code matches the most recent code for the
email but no account has that email, the verified-flag UPDATE touches
no row: Verify still reports success and the whole store is
unchanged. -/
theorem C10_verify_without_account (db : DB) (e c : String) (he : e ≠ "") (hc : c ≠ "")
    (r0 : EmailCode) (hl : latestCode db e = some r0) (hm : r0.code = c)
    (hno : ∀ u ∈ db.users, u.email ≠ e) :
    verify_email db (some e) (some c) = (db, .ok ()) := by
  simp [verify_email, he, hc, hl, hm, setVerified_no_match db.users e hno]

/-- A database holding an issued code but no account at all. -/
def dbCodeNoUser : DB :=
  { users := [], email_codes := [codeRow1], reservations := [],
    nextResId := 1, nextCodeId := 2 }

/-- C10 witness at a concrete input. -/
theorem C10_verify_without_account_witness :
    verify_email dbCodeNoUser (some "a@x.com") (some "111111") = (dbCodeNoUser, .ok ()) :=
  C10_verify_without_account dbCodeNoUser "a@x.com" "111111" (by decide) (by decide)
    codeRow1 rfl rfl (by decide)

/-! ### C6: what Claim does to the staged draft -/

/-- A staged draft missing the required `guests` field. -/
def pdNoGuests : PendingData :=
  { branch := some "B1", date := some "2024-01-01", tables := some ["T1"],
    guests := none, notes := none, menu_items := none }

/-- A complete staged draft. -/
def pdGood : PendingData :=
  { branch := some "B1", date := some "2024-01-01", tables := some ["T1"],
    guests := some 2, notes := none, menu_items := none }

/-- An authenticated session with an invalid draft staged. -/
def sessStagedBad : Sess :=
  { user := some { name := "A", email := "a@x.com" }, pending_booking := some pdNoGuests }

/-- An authenticated session with a complete draft staged. -/
def sessStagedGood : Sess :=
  { user := some { name := "A", email := "a@x.com" }, pending_booking := some pdGood }

/-- C6: counterexample.  The claim says the staged draft is removed on
validation failure too; but the validation-failure return sits before
the `session.pop`, so on an authenticated session whose staged draft
lacks `guests`, Claim reports the validation error and the draft is
still staged. -/
theorem C6_counterexample :
    (claim_pending dbEmpty sessStagedBad none true).2.2 = .validationErr ∧
    (claim_pending dbEmpty sessStagedBad none true).2.1.pending_booking =
      some pdNoGuests := by
  exact ⟨rfl, rfl⟩

/-- C6 (amended): only on success is the staged draft removed from the
session; on validation failure the session (and the store) is left
unchanged, so the draft remains staged; on unexpected storage failure
Claim returns InternalError, again leaving session and store
unchanged. -/
theorem C6_amended (db : DB) (sess : Sess) (body : Option PendingData) (ok : Bool) :
    (∀ db' sess' rid, claim_pending db sess body ok = (db', sess', .ok rid) →
      sess'.pending_booking = none) ∧
    (∀ db' sess', claim_pending db sess body ok = (db', sess', .validationErr) →
      db' = db ∧ sess' = sess) ∧
    (∀ db' sess', claim_pending db sess body ok = (db', sess', .internalErr) →
      db' = db ∧ sess' = sess) := by
  rcases hsu : sess.user with _ | u
  · simp [claim_pending, hsu]
  · rcases hp : body.orElse (fun _ => sess.pending_booking) with _ | p
    · simp [claim_pending, hsu, hp]
    · by_cases hv : (p.branch.isNone || p.date.isNone || p.tables.isNone ||
          p.guests.isNone) = true
      · simp [claim_pending, hsu, hp, hv]
      · cases ok
        · simp [claim_pending, hsu, hp, hv]
        · refine ⟨?_, ?_, ?_⟩ <;> intro db' sess' <;>
            simp [claim_pending, hsu, hp, hv]
          intro _ hsess
          rw [← hsess]

/-- C6 (amended) witness: a successful claim clears the draft; a
validation-failing claim and a storage-failing claim leave state
untouched. -/
theorem C6_amended_witness :
    (claim_pending dbEmpty sessStagedGood none true).2.1.pending_booking = none ∧
    ((claim_pending dbEmpty sessStagedBad none true).1 = dbEmpty ∧
      (claim_pending dbEmpty sessStagedBad none true).2.1 = sessStagedBad) ∧
    ((claim_pending dbEmpty sessStagedGood none false).1 = dbEmpty ∧
      (claim_pending dbEmpty sessStagedGood none false).2.1 = sessStagedGood) :=
  ⟨(C6_amended dbEmpty sessStagedGood none true).1 _ _ dbEmpty.nextResId rfl,
    (C6_amended dbEmpty sessStagedBad none true).2.1 _ _ rfl,
    (C6_amended dbEmpty sessStagedGood none false).2.2 _ _ rfl⟩

/-! ### C7: Claim without identity / without draft -/

/-- An unauthenticated session with a complete draft staged. -/
def sessAnon : Sess :=
  { user := none, pending_booking := some pdGood }

/-- C7: without an authenticated identity Claim fails with AuthError and
both the session (the staged draft included) and the store are
unchanged; with an identity but neither a staged nor a supplied draft
it answers the no-op success, creating no reservation — and the no-op
answer is distinct from every success-with-id answer. -/
theorem C7_claim_auth_and_noop (db : DB) (sess : Sess) (body : Option PendingData)
    (ok : Bool) :
    (sess.user = none → claim_pending db sess body ok = (db, sess, .authErr)) ∧
    (∀ u, sess.user = some u → body = none → sess.pending_booking = none →
      claim_pending db sess body ok = (db, sess, .noop)) ∧
    (∀ rid, ClaimResult.noop = ClaimResult.ok rid → False) := by
  refine ⟨?_, ?_, ?_⟩
  · intro h; simp [claim_pending, h]
  · intro u hu hb hp; simp [claim_pending, hu, hb, hp]
  · intro rid h; cases h

/-- C7 witness at concrete inputs: AuthError with the draft still
staged, then the no-op on an authenticated draft-free session. -/
theorem C7_claim_auth_and_noop_witness :
    claim_pending dbEmpty sessAnon none true = (dbEmpty, sessAnon, .authErr) ∧
    claim_pending dbEmpty sessOwner none true = (dbEmpty, sessOwner, .noop) :=
  ⟨(C7_claim_auth_and_noop dbEmpty sessAnon none true).1 rfl,
    (C7_claim_auth_and_noop dbEmpty sessOwner none true).2.1 _ rfl rfl rfl⟩

end BackendRS
